import Mathlib

/-!
Verification of the netops decision-and-orchestration core.

The repository has two parallel agent implementations:
* `src/agent/decision_agent.py` — HTTP agent (`rule_decision`, `llm_gate`,
  `decide_and_act`) talking to the FastAPI tool servers in `src/servers/`;
* `src/src/agent/` — MCP agent (`DecisionEngine.evaluate_upgrade_rules`,
  `NetworkUpgradeAgent.llm_gate_decision`, `execute_upgrade`) talking to the
  stdio servers in `src/src/servers/`.

Both are embedded here.  Numeric telemetry values are modelled as rationals;
Python `None` and absent dict keys are modelled explicitly.  Collaborator
calls (postgres, influx, ansible, the LLM backend) are passed in as explicit
outcome arguments: the `Except` error case stands for the Python exception
raised at that call site, carrying the exception's message.
-/

namespace NetOps

/-- A JSON/dict numeric field: the key may be absent, present with value
`null` (Python `None`), or present with a number.  `decision_engine.py`
reads such fields with `dict.get(key, default)`. -/
inductive JsonNum where
  | absent
  | null
  | num (x : ℚ)
deriving DecidableEq, Repr

/-- Python `d.get(key, default)` for a numeric field: an absent key yields
the default, a key present with `null` yields `None`, a number yields
itself. -/
def JsonNum.getD (v : JsonNum) (d : ℚ) : Option ℚ :=
  match v with
  | .absent => some d
  | .null => none
  | .num x => some x

/-- Python `x or d` where `x` is `None` or a number: `None` and `0` are both
falsy, so both are replaced by `d` (src/agent/decision_agent.py, lines
35-36). -/
def pyOr (v : Option ℚ) (d : ℚ) : ℚ :=
  match v with
  | none => d
  | some x => if x = 0 then d else x

/-- Python `a or b` on optional strings: `None` and `""` are falsy. -/
def pyOrStr (a b : Option String) : Option String :=
  match a with
  | none => b
  | some s => if s = "" then b else some s

/-- Router row from the postgres `routers` table, restricted to the fields
the agents read.  `maintenance_window` is the truthiness of
`r.get("maintenance_window")`. -/
structure RouterInfo where
  target_ver : Option String
  current_ver : Option String
  maintenance_window : Bool
deriving DecidableEq, Repr

/-- Vendor/model policy row from the postgres `upgrade_policies` table (or
the empty dict when no row matches); either threshold key may be missing,
in which case `policy.get(..)` falls back to the yaml defaults. -/
structure PolicyRow where
  max_cpu_percent : Option ℚ
  min_free_mem_percent : Option ℚ
deriving DecidableEq, Repr

/-- The `defaults:` section of `policy.yaml`, loaded at start-up by both
agents (the yaml file itself ships outside the decision code; its values are
plain configuration inputs here). -/
structure PolicyDefaults where
  max_cpu_percent : ℚ
  min_free_mem_percent : ℚ
  max_critical_errors : ℚ
  require_maintenance_window : Bool
deriving DecidableEq, Repr

/-- The `metrics` sub-dict of a `health_summary`
(src/src/servers/influx_server.py, lines 192-206): `cpu_avg` and
`mem_free_min` can be absent or `null`; `critical_errors` is never `null`
there (the influx server substitutes `critical_errors or 0`), but the key
can be absent from an arbitrary dict, hence `Option`. -/
structure HealthMetrics where
  cpu_avg : JsonNum
  mem_free_min : JsonNum
  critical_errors : Option ℚ
deriving DecidableEq, Repr

/-- The `metrics_summary` dict built by `evaluate_upgrade_rules`
(src/src/agent/decision_engine.py, line 69), restricted to its numeric
entries and condition lines. -/
structure MetricsSummary where
  cpu : Option ℚ
  mem : Option ℚ
  errors : ℚ
  conditions : List String
deriving DecidableEq, Repr

/-- The `UpgradeDecision` dataclass (src/src/agent/decision_engine.py,
lines 10-17); `additional_checks` is omitted (never read by the
orchestration code). -/
structure UpgradeDecision where
  approve : Bool
  reason : String
  target_ver : Option String
  confidence : ℚ
  metrics_summary : MetricsSummary
deriving DecidableEq, Repr

/-- Rendering of an optional number inside a Python f-string (`None` prints
as `None`); numeric formatting is abstracted by `toString`. -/
def showOptQ : Option ℚ → String
  | none => "None"
  | some x => toString x

/-- The maintenance-window part of the rule evaluation in
`evaluate_upgrade_rules` (src/src/agent/decision_engine.py, lines 46-53):
`within_window` is hard-coded `True`, then
`window_ok = within_window or not require_maintenance_window`. -/
def maintenance_window_ok (engine_policy : PolicyDefaults) : Bool :=
  true || !engine_policy.require_maintenance_window

/-- `DecisionEngine.evaluate_upgrade_rules` (src/src/agent/decision_engine.py,
lines 29-70).  `engine_policy` is the engine's loaded `policy.yaml`
defaults; `policy` the per-vendor/model row; `metrics` the health-summary
metrics dict. -/
def evaluate_upgrade_rules (engine_policy : PolicyDefaults)
    (router_info : RouterInfo) (policy : PolicyRow)
    (metrics : HealthMetrics) : UpgradeDecision :=
  let max_cpu := policy.max_cpu_percent.getD engine_policy.max_cpu_percent
  let min_mem := policy.min_free_mem_percent.getD engine_policy.min_free_mem_percent
  let max_errors := engine_policy.max_critical_errors
  let cpu := metrics.cpu_avg.getD 100
  let mem := metrics.mem_free_min.getD 0
  let errors := metrics.critical_errors.getD 0
  let cpu_ok := match cpu with
    | none => false
    | some c => decide (c ≤ max_cpu)
  let mem_ok := match mem with
    | none => false
    | some m => decide (m ≥ min_mem)
  let errors_ok := decide (errors ≤ max_errors)
  let window_ok := maintenance_window_ok engine_policy
  let approve := cpu_ok && mem_ok && errors_ok && window_ok
  let conditions := [
    "CPU " ++ showOptQ cpu ++ "% " ++ (if cpu_ok then "✓" else "✗")
      ++ " (limit: " ++ toString max_cpu ++ "%)",
    "Memory " ++ showOptQ mem ++ "% " ++ (if mem_ok then "✓" else "✗")
      ++ " (min: " ++ toString min_mem ++ "%)",
    "Errors " ++ toString errors ++ " " ++ (if errors_ok then "✓" else "✗")
      ++ " (max: " ++ toString max_errors ++ ")",
    "Window " ++ (if window_ok then "✓" else "✗")]
  let joined := String.intercalate ", " conditions
  { approve := approve
    reason := if approve then "All conditions met: " ++ joined
              else "Conditions failed: " ++ joined
    target_ver := pyOrStr router_info.target_ver router_info.current_ver
    confidence := (8 : ℚ) / 10
    metrics_summary := ⟨cpu, mem, errors, conditions⟩ }

/-- The `Decision` dataclass (src/agent/decision_agent.py, lines 24-28). -/
structure Decision where
  approve : Bool
  reason : String
  target_ver : Option String
deriving DecidableEq, Repr

/-- `rule_decision` (src/agent/decision_agent.py, lines 30-50) with the
collaborator responses passed as arguments: `r` is the router row, `pol`
the (possibly empty) policy row, `avg_cpu` / `min_free_mem` the influx
readings (a number or `null`), `critical_errors` the error count (the
influx endpoint always returns a number for it). -/
def rule_decision (POLICY : PolicyDefaults) (r : RouterInfo) (pol : PolicyRow)
    (avg_cpu : Option ℚ) (min_free_mem : Option ℚ)
    (critical_errors : ℚ) : Decision :=
  let cpu := pyOr avg_cpu 100
  let mem := pyOr min_free_mem 0
  let max_cpu := pol.max_cpu_percent.getD POLICY.max_cpu_percent
  let min_mem := pol.min_free_mem_percent.getD POLICY.min_free_mem_percent
  let max_err := POLICY.max_critical_errors
  let within_window :=
    if r.maintenance_window then
      -- both branches of line 45 are True
      if POLICY.require_maintenance_window then true else true
    else true
  let ok := decide (cpu ≤ max_cpu) && decide (mem ≥ min_mem)
    && decide (critical_errors ≤ max_err) && within_window
  let reason := "cpu_avg=" ++ toString cpu ++ "<= " ++ toString max_cpu
    ++ ", mem_min=" ++ toString mem ++ ">= " ++ toString min_mem
    ++ ", crit_errs=" ++ toString critical_errors ++ "<= " ++ toString max_err
    ++ ", window=" ++ (if within_window then "True" else "False")
  let target := pyOrStr r.target_ver r.current_ver
  ⟨ok, if ok then reason else "Denied: " ++ reason, target⟩

/-- The parsed gate reply `{"approve": .., "reason": ..}` used by the simple
agent's `llm_gate`; a reply from which either key is missing raises
`KeyError` inside the `try`, i.e. lands in the `.error` case below. -/
structure GateReply where
  approve : Bool
  reason : String
deriving DecidableEq, Repr

/-- `llm_gate` (src/agent/decision_agent.py, lines 53-75).  The whole
backend interaction — API call, JSON parse, field access — sits inside one
`try`; `gate_try` is its outcome, and any raised error is the `.error`
case, which yields the fail-closed deny of lines 73-75. -/
def llm_gate (enabled : Bool) (gate_try : Except String GateReply)
    (decision : Decision) : Decision :=
  if !enabled then decision
  else
    match gate_try with
    | .ok data => ⟨data.approve, data.reason, decision.target_ver⟩
    | .error e => ⟨false, "LLM gate error: " ++ e, decision.target_ver⟩

/-- Raw JSON object parsed from the gate model's text reply in
`llm_gate_decision`; each required key may be missing from the parsed
dict. -/
structure RawGateJson where
  approve : Option Bool
  reason : Option String
  confidence : Option ℚ
deriving DecidableEq, Repr

/-- The field accesses `decision_data['approve']`, `['reason']`,
`['confidence']` of src/src/agent/mcp_agent.py, lines 211-215: a missing
key raises `KeyError`, landing in the surrounding `except`. -/
def read_gate_fields (raw : RawGateJson) : Except String (Bool × String × ℚ) :=
  match raw.approve with
  | none => .error "KeyError: approve"
  | some a =>
    match raw.reason with
    | none => .error "KeyError: reason"
    | some r =>
      match raw.confidence with
      | none => .error "KeyError: confidence"
      | some c => .ok (a, r, c)

/-- Outcome of the Anthropic call inside `llm_gate_decision`
(src/src/agent/mcp_agent.py, lines 198-210): the call may raise; otherwise
the first content block is either a text block — whose body JSON may or may
not parse — or a block of some other type. -/
inductive GateOutcome where
  | raised (e : String)
  | text (parsed : Option RawGateJson)
  | nonText
deriving DecidableEq, Repr

/-- `NetworkUpgradeAgent.llm_gate_decision` (src/src/agent/mcp_agent.py,
lines 153-234).  A raised error, an unparseable text body, or a missing
required field all land in the `except` of lines 223-232 (fail-closed
deny).  The final `return rule_decision` of line 234 is reached exactly
when the response's first content block is not a text block.  In the
success path the `llm_analysis` entry merged into `metrics_summary` is
dropped (the summary dict is modelled by its numeric fields only). -/
def llm_gate_decision (enabled : Bool) (outcome : GateOutcome)
    (rule : UpgradeDecision) : UpgradeDecision :=
  if !enabled then rule
  else
    match outcome with
    | .raised e =>
      { approve := false, reason := "LLM gate failed: " ++ e
        target_ver := rule.target_ver, confidence := 0
        metrics_summary := rule.metrics_summary }
    | .text none =>
      { approve := false, reason := "LLM gate failed: JSONDecodeError"
        target_ver := rule.target_ver, confidence := 0
        metrics_summary := rule.metrics_summary }
    | .text (some raw) =>
      match read_gate_fields raw with
      | .error e =>
        { approve := false, reason := "LLM gate failed: " ++ e
          target_ver := rule.target_ver, confidence := 0
          metrics_summary := rule.metrics_summary }
      | .ok (a, rsn, c) =>
        { approve := a, reason := rsn, target_ver := rule.target_ver
          confidence := c, metrics_summary := rule.metrics_summary }
    | .nonText => rule

/-- `analyze_upgrade_readiness` decision pipeline (src/src/agent/mcp_agent.py,
lines 109-142): rule evaluation followed by the gate. -/
def analyze_upgrade_readiness (engine_policy : PolicyDefaults)
    (router_info : RouterInfo) (policy : PolicyRow) (metrics : HealthMetrics)
    (gate_enabled : Bool) (gate_outcome : GateOutcome) : UpgradeDecision :=
  llm_gate_decision gate_enabled gate_outcome
    (evaluate_upgrade_rules engine_policy router_info policy metrics)

/-- `calculate_health_status` (src/src/servers/influx_server.py, lines
215-226). -/
def calculate_health_status (cpu mem : Option ℚ) (errors : ℚ) : String :=
  match cpu, mem with
  | none, _ => "unknown"
  | some _, none => "unknown"
  | some c, some m =>
    if errors > 0 then "critical"
    else if c > 80 ∨ m < 20 then "warning"
    else if c > 70 ∨ m < 30 then "caution"
    else "healthy"

/-- The health-status formula exactly as the specification words it:
`critical` if critical_errors > 0; else `warning` if cpu_avg > 80 or
mem_free_min < 20; else `caution` if cpu_avg > 70 or mem_free_min < 30;
else `healthy`; and `unknown` when cpu_avg or mem_free_min could not be
obtained. -/
def spec_health_status : Option ℚ → Option ℚ → ℚ → String
  | none, _, _ => "unknown"
  | some _, none, _ => "unknown"
  | some c, some m, e =>
    if 0 < e then "critical"
    else if 80 < c ∨ m < 20 then "warning"
    else if 70 < c ∨ m < 30 then "caution"
    else "healthy"

/-- A row of the postgres `upgrades` table; the schema in
src/src/common/database.py gives `status TEXT DEFAULT 'pending'`. -/
structure UpgradeRow where
  router_id : String
  decision : String
  reason : String
  target_ver : Option String
  status : String
deriving DecidableEq, Repr

/-- The `details` payload of an `update_upgrade_status` call: nothing (the
`running` update), an `{"error": str(e)}` dict, a `{"reason": ..}` dict,
the precheck's run result, or the ansible tool result. -/
inductive UpdateInfo where
  | empty
  | err (e : String)
  | reasonInfo (s : String)
  | check (returncode : Int) (stdout stderr : String)
  | tool (success : Bool)
deriving DecidableEq, Repr

/-- A row of the postgres `audit_events` table. -/
structure AuditEvent where
  router_id : String
  event : String
  details : UpdateInfo
deriving DecidableEq, Repr

/-- The relational store as the agents see it.  Row ids of the `upgrades`
table are list indices. -/
structure DB where
  upgrades : List UpgradeRow
  audit : List AuditEvent
deriving DecidableEq, Repr

/-- The `record_decision` tool (src/src/servers/postgres_server.py, lines
170-190 and src/servers/mcp_postgres/server.py, lines 37-46): inserts a new
`upgrades` row — whose status takes the schema default `pending` — and
returns its id. -/
def record_decision (db : DB) (router_id decision reason : String)
    (target_ver : Option String) : DB × Nat :=
  (⟨db.upgrades ++ [⟨router_id, decision, reason, target_ver, "pending"⟩],
    db.audit⟩,
   db.upgrades.length)

/-- The `update_upgrade_status` tool (src/src/servers/postgres_server.py,
lines 193-223): sets the row's status and appends one
`upgrade_status:<status>` audit event for the row's router. -/
def update_upgrade_status (db : DB) (upgrade_id : Nat) (status : String)
    (info : UpdateInfo) : DB :=
  match db.upgrades[upgrade_id]? with
  | some row =>
    ⟨db.upgrades.set upgrade_id { row with status := status },
     db.audit ++ [⟨row.router_id, "upgrade_status:" ++ status, info⟩]⟩
  | none => db

/-- One call to the automation (ansible) backend; `check` marks the dry-run
mode. -/
structure AnsibleCall where
  router_id : String
  target_ver : Option String
  check : Bool
deriving DecidableEq, Repr

/-- The result of `run_playbook` in src/servers/mcp_ansible/server.py. -/
structure RunResult where
  returncode : Int
  stdout : String
  stderr : String
deriving DecidableEq, Repr

/-- The `/tool/upgrade` endpoint of the HTTP ansible server
(src/servers/mcp_ansible/server.py, lines 39-46): a non-zero playbook
return code becomes an HTTP 500 carrying the stderr, i.e. a raised error at
the caller; a zero return code yields the run result. -/
def ansible_upgrade_endpoint (res : RunResult) : Except String RunResult :=
  if res.returncode ≠ 0 then .error res.stderr else .ok res

/-- The parsed JSON result of the MCP ansible `upgrade` tool
(src/src/servers/ansible_server.py, lines 180-186); `execute_upgrade` only
consults `success`. -/
structure AnsibleToolResult where
  returncode : Int
  stdout : String
  stderr : String
  success : Bool
deriving DecidableEq, Repr

/-- One observable side effect of an orchestrator run: an `upgrades` insert,
a status update of the attempt it created, or an automation-backend call. -/
inductive Effect where
  | recordDecision (router_id decision reason : String)
    (target_ver : Option String)
  | updateStatus (status : String) (info : UpdateInfo)
  | ansible (call : AnsibleCall)
deriving DecidableEq, Repr

/-- The statuses an effect list persists, in order. -/
def status_trace (effects : List Effect) : List String :=
  effects.filterMap fun e =>
    match e with
    | .updateStatus s _ => some s
    | _ => none

/-- The automation-backend calls an effect list makes, in order. -/
def backend_calls (effects : List Effect) : List AnsibleCall :=
  effects.filterMap fun e =>
    match e with
    | .ansible c => some c
    | _ => none

/-- Replays an effect list against the store.  `uid` is the id returned by
the most recent `record_decision`, the row all `update_upgrade_status`
calls of the orchestrators address. -/
def run_effects (db : DB) (uid : Option Nat) : List Effect → DB
  | [] => db
  | .recordDecision rid dcs rsn tv :: rest =>
    let p := record_decision db rid dcs rsn tv
    run_effects p.1 (some p.2) rest
  | .updateStatus s info :: rest =>
    (match uid with
     | some i => run_effects (update_upgrade_status db i s info) uid rest
     | none => run_effects db uid rest)
  | .ansible _ :: rest => run_effects db uid rest

/-- `decide_and_act` (src/agent/decision_agent.py, lines 77-113) after the
final decision `d` has been produced (lines 79-80), as the list of side
effects it performs plus the status it reports.  `precheck` and `execution`
are the outcomes of the two `/tool/upgrade` posts (dry-run and real); an
`.error` is the exception the `post` helper raises. -/
def decide_and_act_effects (d : Decision) (router_id : String)
    (dry_run : Bool) (precheck : Except String RunResult)
    (execution : Except String RunResult) : List Effect × String :=
  let rec0 := Effect.recordDecision router_id
    (if d.approve then "approve" else "deny") d.reason d.target_ver
  if !d.approve then
    ([rec0, .updateStatus "denied" (.reasonInfo d.reason)], "denied")
  else
    let pre_call := Effect.ansible ⟨router_id, d.target_ver, true⟩
    match precheck with
    | .error e =>
      ([rec0, pre_call, .updateStatus "precheck-failed" (.err e)],
       "precheck-failed")
    | .ok res =>
      let pre_upd := Effect.updateStatus "precheck"
        (.check res.returncode res.stdout res.stderr)
      if dry_run then
        ([rec0, pre_call, pre_upd], "precheck-ok")
      else
        let exec_call := Effect.ansible ⟨router_id, d.target_ver, false⟩
        match execution with
        | .ok res2 =>
          ([rec0, pre_call, pre_upd, .updateStatus "running" .empty,
            exec_call,
            .updateStatus "success" (.check res2.returncode res2.stdout res2.stderr)],
           "success")
        | .error e =>
          ([rec0, pre_call, pre_upd, .updateStatus "running" .empty,
            exec_call, .updateStatus "failed" (.err e)],
           "failed")

/-- `decide_and_act`'s effects replayed against the store, returning the new
store and the reported status. -/
def decide_and_act (d : Decision) (router_id : String) (dry_run : Bool)
    (precheck execution : Except String RunResult) (db : DB) : DB × String :=
  let p := decide_and_act_effects d router_id dry_run precheck execution
  (run_effects db none p.1, p.2)

/-- `NetworkUpgradeAgent.execute_upgrade` (src/src/agent/mcp_agent.py, lines
236-314) after `analyze_upgrade_readiness` returned `decision`, as its
effect list plus reported status.  Note lines 262-283: the record's status
is set straight to `running` — no precheck status exists in this agent —
and a denied decision returns before any insert or status update.
`ansible_outcome` is the MCP `upgrade` tool call's outcome. -/
def execute_upgrade_effects (decision : UpgradeDecision) (router_id : String)
    (dry_run : Bool) (ansible_outcome : Except String AnsibleToolResult) :
    List Effect × String :=
  if !decision.approve then ([], "denied")
  else
    let rec0 := Effect.recordDecision router_id "approve" decision.reason
      decision.target_ver
    let the_call := Effect.ansible ⟨router_id, decision.target_ver, dry_run⟩
    match ansible_outcome with
    | .error e =>
      ([rec0, .updateStatus "running" .empty, the_call,
        .updateStatus "failed" (.err e)],
       "failed")
    | .ok res =>
      let final := if res.success then "success" else "failed"
      ([rec0, .updateStatus "running" .empty, the_call,
        .updateStatus final (.tool res.success)],
       final)

/-- `execute_upgrade`'s effects replayed against the store. -/
def execute_upgrade (decision : UpgradeDecision) (router_id : String)
    (dry_run : Bool) (ansible_outcome : Except String AnsibleToolResult)
    (db : DB) : DB × String :=
  let p := execute_upgrade_effects decision router_id dry_run ansible_outcome
  (run_effects db none p.1, p.2)

/-- The terminal statuses of the upgrade state machine (spec §4.4; the two
agents spell `precheck_failed` as `precheck-failed`). -/
def terminal_status (s : String) : Bool :=
  s = "denied" || s = "precheck-failed" || s = "success" || s = "failed"

/-- A device has an in-flight attempt when some `upgrades` row for it is in
a non-terminal status. -/
def has_inflight_attempt (db : DB) (router_id : String) : Bool :=
  db.upgrades.any fun row =>
    row.router_id = router_id && !terminal_status row.status

/-! ## Helper lemmas -/

lemma update_upgrade_status_length (db : DB) (i : Nat) (s : String)
    (info : UpdateInfo) :
    (update_upgrade_status db i s info).upgrades.length =
      db.upgrades.length := by
  unfold update_upgrade_status
  cases h : db.upgrades[i]? <;> simp

/-! ## Claims -/

/-- Claim C1: with the gate enabled, any error raised while obtaining the
gate backend's opinion makes the final verdict a deny whose reason names
the gate failure, whatever the rule verdict said — in both agents. -/
theorem gate_fail_closed_on_error :
    (∀ (d : Decision) (e : String),
      llm_gate true (.error e) d =
        ⟨false, "LLM gate error: " ++ e, d.target_ver⟩) ∧
    (∀ (rule : UpgradeDecision) (e : String),
      llm_gate_decision true (.raised e) rule =
        ⟨false, "LLM gate failed: " ++ e, rule.target_ver, 0,
         rule.metrics_summary⟩) := by
  exact ⟨fun d e => rfl, fun rule e => rfl⟩

/-- Claim C8: `calculate_health_status` computes exactly the status formula
the specification states. -/
theorem health_status_matches_spec :
    ∀ (cpu mem : Option ℚ) (errors : ℚ),
      calculate_health_status cpu mem errors =
        spec_health_status cpu mem errors := by
  intro cpu mem errors
  cases cpu <;> cases mem <;> rfl

/-- Claim C2: `evaluate_upgrade_rules` approves iff the CPU, memory, error
and maintenance-window conditions all hold; in particular a snapshot
meeting the CPU and memory thresholds with zero critical errors is
approved. -/
theorem policy_evaluator_approve_iff :
    (∀ (ep : PolicyDefaults) (r : RouterInfo) (pol : PolicyRow) (c m e : ℚ),
      (evaluate_upgrade_rules ep r pol ⟨.num c, .num m, some e⟩).approve = true ↔
        (c ≤ pol.max_cpu_percent.getD ep.max_cpu_percent ∧
         pol.min_free_mem_percent.getD ep.min_free_mem_percent ≤ m ∧
         e ≤ ep.max_critical_errors ∧
         maintenance_window_ok ep = true)) ∧
    (∀ (ep : PolicyDefaults) (r : RouterInfo) (pol : PolicyRow) (c m : ℚ),
      c ≤ pol.max_cpu_percent.getD ep.max_cpu_percent →
      pol.min_free_mem_percent.getD ep.min_free_mem_percent ≤ m →
      0 ≤ ep.max_critical_errors →
      (evaluate_upgrade_rules ep r pol ⟨.num c, .num m, some 0⟩).approve = true) := by
  constructor
  · intro ep r pol c m e
    simp [evaluate_upgrade_rules, JsonNum.getD, maintenance_window_ok,
      ge_iff_le, and_assoc]
  · intro ep r pol c m h1 h2 h3
    simp [evaluate_upgrade_rules, JsonNum.getD, maintenance_window_ok, ge_iff_le]
    exact ⟨⟨h1, h2⟩, h3⟩

/-- Witness for C2 (spec §8 scenario A: `max_cpu=75, min_mem=25`,
`cpu_avg=45, mem_free_min=60, critical_errors=0`). -/
theorem policy_evaluator_approve_iff_witness :
    (evaluate_upgrade_rules ⟨75, 25, 0, false⟩
      ⟨some "16.12.03", some "16.09.04", false⟩ ⟨none, none⟩
      ⟨.num 45, .num 60, some 0⟩).approve = true :=
  policy_evaluator_approve_iff.2 ⟨75, 25, 0, false⟩
    ⟨some "16.12.03", some "16.09.04", false⟩ ⟨none, none⟩ 45 60
    (by decide) (by decide) (by decide)

/-- Claim C6: an absent `cpu_avg` is evaluated exactly as the value 100 and
an absent `mem_free_min` exactly as the value 0, in both evaluators; with
any CPU threshold below 100 an absent `cpu_avg` forces a deny, so absence
is never an unconstrained condition. -/
theorem absent_metrics_conservative :
    (∀ (ep : PolicyDefaults) (r : RouterInfo) (pol : PolicyRow)
       (mm : JsonNum) (e : Option ℚ),
      evaluate_upgrade_rules ep r pol ⟨.absent, mm, e⟩ =
        evaluate_upgrade_rules ep r pol ⟨.num 100, mm, e⟩) ∧
    (∀ (ep : PolicyDefaults) (r : RouterInfo) (pol : PolicyRow)
       (cc : JsonNum) (e : Option ℚ),
      evaluate_upgrade_rules ep r pol ⟨cc, .absent, e⟩ =
        evaluate_upgrade_rules ep r pol ⟨cc, .num 0, e⟩) ∧
    (∀ (ep : PolicyDefaults) (r : RouterInfo) (pol : PolicyRow)
       (mm : JsonNum) (e : Option ℚ),
      pol.max_cpu_percent.getD ep.max_cpu_percent < 100 →
      (evaluate_upgrade_rules ep r pol ⟨.absent, mm, e⟩).approve = false) ∧
    (∀ (POLICY : PolicyDefaults) (r : RouterInfo) (pol : PolicyRow)
       (mfm : Option ℚ) (ce : ℚ),
      rule_decision POLICY r pol none mfm ce =
        rule_decision POLICY r pol (some 100) mfm ce) ∧
    (∀ (POLICY : PolicyDefaults) (r : RouterInfo) (pol : PolicyRow)
       (ac : Option ℚ) (ce : ℚ),
      rule_decision POLICY r pol ac none ce =
        rule_decision POLICY r pol ac (some 0) ce) ∧
    (∀ (POLICY : PolicyDefaults) (r : RouterInfo) (pol : PolicyRow)
       (mfm : Option ℚ) (ce : ℚ),
      pol.max_cpu_percent.getD POLICY.max_cpu_percent < 100 →
      (rule_decision POLICY r pol none mfm ce).approve = false) := by
  refine ⟨fun ep r pol mm e => rfl, fun ep r pol cc e => rfl, ?_,
    fun POLICY r pol mfm ce => rfl, fun POLICY r pol ac ce => rfl, ?_⟩
  · intro ep r pol mm e h
    simp [evaluate_upgrade_rules, JsonNum.getD, decide_eq_false (not_le.mpr h)]
  · intro POLICY r pol mfm ce h
    simp [rule_decision, pyOr, decide_eq_false (not_le.mpr h)]

/-- Witness for C6: threshold 75 < 100, absent CPU reading, healthy
remaining metrics — both evaluators deny. -/
theorem absent_metrics_conservative_witness :
    (evaluate_upgrade_rules ⟨75, 25, 0, false⟩
        ⟨some "16.12.03", some "16.09.04", false⟩ ⟨none, none⟩
        ⟨.absent, .num 60, some 0⟩).approve = false ∧
    (rule_decision ⟨75, 25, 0, false⟩
        ⟨some "16.12.03", some "16.09.04", false⟩ ⟨none, none⟩
        none (some 60) 0).approve = false :=
  ⟨absent_metrics_conservative.2.2.1 ⟨75, 25, 0, false⟩
      ⟨some "16.12.03", some "16.09.04", false⟩ ⟨none, none⟩
      (.num 60) (some 0) (by decide),
   absent_metrics_conservative.2.2.2.2.2 ⟨75, 25, 0, false⟩
      ⟨some "16.12.03", some "16.09.04", false⟩ ⟨none, none⟩
      (some 60) 0 (by decide)⟩

/-- Claim C10: in `rule_decision` a reported `avg_cpu` of exactly 0 is
falsy, so `cpu = avg_cpu or 100` replaces it by 100: the decision is
identical to the absent-CPU case, and any policy with a CPU threshold
below 100 denies the device even though 0 satisfies the threshold. -/
theorem zero_cpu_treated_as_absent :
    (∀ (POLICY : PolicyDefaults) (r : RouterInfo) (pol : PolicyRow)
       (mfm : Option ℚ) (ce : ℚ),
      rule_decision POLICY r pol (some 0) mfm ce =
        rule_decision POLICY r pol none mfm ce) ∧
    (∀ (POLICY : PolicyDefaults) (r : RouterInfo) (pol : PolicyRow)
       (mfm : Option ℚ) (ce : ℚ),
      0 ≤ pol.max_cpu_percent.getD POLICY.max_cpu_percent →
      pol.max_cpu_percent.getD POLICY.max_cpu_percent < 100 →
      (rule_decision POLICY r pol (some 0) mfm ce).approve = false) := by
  constructor
  · intro POLICY r pol mfm ce
    rfl
  · intro POLICY r pol mfm ce h0 h
    simp [rule_decision, pyOr, decide_eq_false (not_le.mpr h)]

/-- Witness for C10: threshold 75 (so 0 ≤ 75 < 100), reported CPU 0,
healthy memory and no errors — still denied. -/
theorem zero_cpu_treated_as_absent_witness :
    (rule_decision ⟨75, 25, 0, false⟩
        ⟨some "16.12.03", some "16.09.04", false⟩ ⟨none, none⟩
        (some 0) (some 60) 0).approve = false :=
  zero_cpu_treated_as_absent.2 ⟨75, 25, 0, false⟩
    ⟨some "16.12.03", some "16.09.04", false⟩ ⟨none, none⟩
    (some 60) 0 (by decide) (by decide)

/-- Counterexample to claim C7: with the gate enabled and a rule verdict of
`approve = true`, a gate response whose first content block is not a text
block — a malformed response containing none of the required fields — is
passed through as the rule verdict (src/src/agent/mcp_agent.py, line 234),
so the final verdict has `approve = true`, not `false`. -/
theorem gate_nontext_passthrough_counterexample :
    llm_gate_decision true .nonText
        ⟨true, "rule approved", some "16.12.03", (8 : ℚ) / 10,
         ⟨some 45, some 60, 0, []⟩⟩ =
      ⟨true, "rule approved", some "16.12.03", (8 : ℚ) / 10,
       ⟨some 45, some 60, 0, []⟩⟩ ∧
    (llm_gate_decision true .nonText
        ⟨true, "rule approved", some "16.12.03", (8 : ℚ) / 10,
         ⟨some 45, some 60, 0, []⟩⟩).approve = true :=
  ⟨rfl, rfl⟩

/-- Claim C7 as amended: with the gate enabled, a text response that fails
to parse, or whose parsed JSON lacks `approve`, `reason` or `confidence`,
raises inside the `try` and is treated as a gate failure (`approve = false`);
but a response whose first content block is not a text block is passed
through unchanged as the rule verdict. -/
theorem malformed_gate_text_fail_closed :
    (∀ (rule : UpgradeDecision),
      (llm_gate_decision true (.text none) rule).approve = false) ∧
    (∀ (rule : UpgradeDecision) (raw : RawGateJson),
      raw.approve = none ∨ raw.reason = none ∨ raw.confidence = none →
      (llm_gate_decision true (.text (some raw)) rule).approve = false) ∧
    (∀ (rule : UpgradeDecision),
      llm_gate_decision true .nonText rule = rule) := by
  refine ⟨fun rule => rfl, ?_, fun rule => rfl⟩
  intro rule raw h
  obtain ⟨a, rr, cc⟩ := raw
  cases a <;> cases rr <;> cases cc <;>
    simp_all [llm_gate_decision, read_gate_fields]

/-- Witness for C7 (amended): a parsed gate reply missing the `approve`
field yields a deny even though the rule verdict approved. -/
theorem malformed_gate_text_fail_closed_witness :
    (llm_gate_decision true
        (.text (some ⟨none, some "looks fine", some 1⟩))
        ⟨true, "rule approved", some "16.12.03", (8 : ℚ) / 10,
         ⟨some 45, some 60, 0, []⟩⟩).approve = false :=
  malformed_gate_text_fail_closed.2.1
    ⟨true, "rule approved", some "16.12.03", (8 : ℚ) / 10,
     ⟨some 45, some 60, 0, []⟩⟩
    ⟨none, some "looks fine", some 1⟩ (Or.inl rfl)

/-- Claim C4: for an approved verdict, a precheck call that raises — in
particular one against the ansible endpoint whose playbook exits non-zero,
which surfaces as an HTTP 500 — makes `decide_and_act` persist
`precheck-failed` with the failure detail and return: no `running` status
and no apply-mode backend call ever happens. -/
theorem precheck_failure_short_circuits :
    (∀ (d : Decision) (rid : String) (dry : Bool) (e : String)
       (execution : Except String RunResult),
      d.approve = true →
      decide_and_act_effects d rid dry (.error e) execution =
        ([.recordDecision rid "approve" d.reason d.target_ver,
          .ansible ⟨rid, d.target_ver, true⟩,
          .updateStatus "precheck-failed" (.err e)], "precheck-failed")) ∧
    (∀ (d : Decision) (rid : String) (dry : Bool) (r : RunResult)
       (execution : Except String RunResult),
      d.approve = true → r.returncode ≠ 0 →
      decide_and_act_effects d rid dry (ansible_upgrade_endpoint r)
          execution =
        ([.recordDecision rid "approve" d.reason d.target_ver,
          .ansible ⟨rid, d.target_ver, true⟩,
          .updateStatus "precheck-failed" (.err r.stderr)],
         "precheck-failed")) ∧
    (∀ (d : Decision) (rid : String) (dry : Bool) (e : String)
       (execution : Except String RunResult),
      d.approve = true →
      "running" ∉
        status_trace (decide_and_act_effects d rid dry (.error e) execution).1 ∧
      backend_calls (decide_and_act_effects d rid dry (.error e) execution).1 =
        [⟨rid, d.target_ver, true⟩]) := by
  refine ⟨?_, ?_, ?_⟩
  · intro d rid dry e execution ha
    simp [decide_and_act_effects, ha]
  · intro d rid dry r execution ha hr
    simp [decide_and_act_effects, ha, ansible_upgrade_endpoint, hr]
  · intro d rid dry e execution ha
    simp [decide_and_act_effects, ha, status_trace, backend_calls]

/-- Witness for C4 (spec §8 scenario D shape): approved verdict, precheck
playbook exits 2 — status becomes `precheck-failed`, only the dry-run call
was made. -/
theorem precheck_failure_short_circuits_witness :
    decide_and_act_effects ⟨true, "All conditions met", some "16.12.03"⟩
        "R1" false (ansible_upgrade_endpoint ⟨2, "", "unreachable"⟩)
        (.ok ⟨0, "", ""⟩) =
      ([.recordDecision "R1" "approve" "All conditions met" (some "16.12.03"),
        .ansible ⟨"R1", some "16.12.03", true⟩,
        .updateStatus "precheck-failed" (.err "unreachable")],
       "precheck-failed") :=
  precheck_failure_short_circuits.2.1 ⟨true, "All conditions met", some "16.12.03"⟩
    "R1" false ⟨2, "", "unreachable"⟩ (.ok ⟨0, "", ""⟩) rfl (by decide)

/-- Counterexample to claim C5: in `execute_upgrade`
(src/src/agent/mcp_agent.py, lines 244-250) a denied verdict returns
without any status update: nothing is persisted — in particular the status
`denied` is never written — and an existing `pending` attempt row is left
untouched, so the claim's "transitions the attempt directly to status
denied, persists it" fails on this orchestrator.  (Zero backend calls do
hold.) -/
theorem denied_not_persisted_counterexample :
    execute_upgrade_effects
        ⟨false, "Conditions failed", some "16.12.03", 0, ⟨some 90, some 60, 0, []⟩⟩
        "R1" false (.ok ⟨0, "", "", true⟩) = ([], "denied") ∧
    "denied" ∉ status_trace (execute_upgrade_effects
        ⟨false, "Conditions failed", some "16.12.03", 0, ⟨some 90, some 60, 0, []⟩⟩
        "R1" false (.ok ⟨0, "", "", true⟩)).1 ∧
    execute_upgrade
        ⟨false, "Conditions failed", some "16.12.03", 0, ⟨some 90, some 60, 0, []⟩⟩
        "R1" false (.ok ⟨0, "", "", true⟩)
        ⟨[⟨"R1", "deny", "Conditions failed", some "16.12.03", "pending"⟩], []⟩ =
      (⟨[⟨"R1", "deny", "Conditions failed", some "16.12.03", "pending"⟩], []⟩,
       "denied") := by
  exact ⟨rfl, by decide, rfl⟩

/-- Claim C5 as amended: a final verdict with `approve = false` triggers
zero automation-backend calls in both orchestrators; `decide_and_act`
persists the status `denied` and returns, while `execute_upgrade` returns a
denied result without persisting any status at all (its attempt record
keeps the schema default `pending`). -/
theorem denied_no_backend_call :
    (∀ (d : Decision) (rid : String) (dry : Bool)
       (pre exec : Except String RunResult),
      d.approve = false →
      decide_and_act_effects d rid dry pre exec =
        ([.recordDecision rid "deny" d.reason d.target_ver,
          .updateStatus "denied" (.reasonInfo d.reason)], "denied") ∧
      backend_calls (decide_and_act_effects d rid dry pre exec).1 = []) ∧
    (∀ (dec : UpgradeDecision) (rid : String) (dry : Bool)
       (out : Except String AnsibleToolResult),
      dec.approve = false →
      execute_upgrade_effects dec rid dry out = ([], "denied") ∧
      backend_calls (execute_upgrade_effects dec rid dry out).1 = []) := by
  constructor
  · intro d rid dry pre exec ha
    constructor
    · simp [decide_and_act_effects, ha]
    · simp [decide_and_act_effects, ha, backend_calls]
  · intro dec rid dry out ha
    constructor
    · simp [execute_upgrade_effects, ha]
    · simp [execute_upgrade_effects, ha, backend_calls]

/-- Witness for C5 (amended): a concrete denied verdict in each
orchestrator — `denied` persisted and no backend call in `decide_and_act`,
no backend call in `execute_upgrade`. -/
theorem denied_no_backend_call_witness :
    (decide_and_act_effects ⟨false, "Denied: cpu", some "16.12.03"⟩
        "R1" false (.ok ⟨0, "", ""⟩) (.ok ⟨0, "", ""⟩) =
      ([.recordDecision "R1" "deny" "Denied: cpu" (some "16.12.03"),
        .updateStatus "denied" (.reasonInfo "Denied: cpu")], "denied")) ∧
    backend_calls (execute_upgrade_effects
        ⟨false, "Conditions failed", none, 0, ⟨none, none, 0, []⟩⟩
        "R2" true (.error "unused")).1 = [] :=
  ⟨(denied_no_backend_call.1 ⟨false, "Denied: cpu", some "16.12.03"⟩
      "R1" false (.ok ⟨0, "", ""⟩) (.ok ⟨0, "", ""⟩) rfl).1,
   (denied_no_backend_call.2
      ⟨false, "Conditions failed", none, 0, ⟨none, none, 0, []⟩⟩
      "R2" true (.error "unused") rfl).2⟩

/-- Counterexample to claim C3: an approved attempt run through
`execute_upgrade` (src/src/agent/mcp_agent.py, lines 262-283) persists the
status trace `running, success`: it reaches `running` without ever having
reached a precheck status, so the claim's lifecycle invariant fails on this
orchestrator. -/
theorem running_without_precheck_counterexample :
    status_trace (execute_upgrade_effects
        ⟨true, "All conditions met", some "16.12.03", (8 : ℚ) / 10,
         ⟨some 45, some 60, 0, []⟩⟩
        "R1" false (.ok ⟨0, "", "", true⟩)).1 = ["running", "success"] ∧
    "running" ∈ status_trace (execute_upgrade_effects
        ⟨true, "All conditions met", some "16.12.03", (8 : ℚ) / 10,
         ⟨some 45, some 60, 0, []⟩⟩
        "R1" false (.ok ⟨0, "", "", true⟩)).1 ∧
    "precheck" ∉ status_trace (execute_upgrade_effects
        ⟨true, "All conditions met", some "16.12.03", (8 : ℚ) / 10,
         ⟨some 45, some 60, 0, []⟩⟩
        "R1" false (.ok ⟨0, "", "", true⟩)).1 := by
  refine ⟨rfl, by decide, by decide⟩

/-- Claim C3 as amended: in `decide_and_act` every persisted status trace
reaches `running` only with `precheck` recorded earlier, and no status —
in particular no terminal status — is recorded twice; `execute_upgrade`
also never records a status twice, but it records `running` directly with
no precheck status ever, for every approved decision. -/
theorem upgrade_status_lifecycle :
    (∀ (d : Decision) (rid : String) (dry : Bool)
       (pre exec : Except String RunResult),
      ("running" ∈ status_trace (decide_and_act_effects d rid dry pre exec).1 →
        ∃ (i j : Nat), i < j ∧
          (status_trace (decide_and_act_effects d rid dry pre exec).1)[i]? =
            some "precheck" ∧
          (status_trace (decide_and_act_effects d rid dry pre exec).1)[j]? =
            some "running") ∧
      (∀ s, (status_trace (decide_and_act_effects d rid dry pre exec).1).count s ≤ 1)) ∧
    (∀ (dec : UpgradeDecision) (rid : String) (dry : Bool)
       (out : Except String AnsibleToolResult),
      dec.approve = true →
      "running" ∈ status_trace (execute_upgrade_effects dec rid dry out).1 ∧
      "precheck" ∉ status_trace (execute_upgrade_effects dec rid dry out).1 ∧
      ∀ s, (status_trace (execute_upgrade_effects dec rid dry out).1).count s ≤ 1) := by
  constructor
  · intro d rid dry pre exec
    cases hd : d.approve with
    | false =>
      have ht : status_trace (decide_and_act_effects d rid dry pre exec).1 =
          ["denied"] := by simp [decide_and_act_effects, hd, status_trace]
      rw [ht]
      exact ⟨by intro h; simp at h,
             fun s => List.nodup_iff_count_le_one.mp (by decide) s⟩
    | true =>
      cases pre with
      | error e =>
        have ht : status_trace
            (decide_and_act_effects d rid dry (.error e) exec).1 =
            ["precheck-failed"] := by
          simp [decide_and_act_effects, hd, status_trace]
        rw [ht]
        exact ⟨by intro h; simp at h,
               fun s => List.nodup_iff_count_le_one.mp (by decide) s⟩
      | ok res =>
        cases dry with
        | true =>
          have ht : status_trace
              (decide_and_act_effects d rid true (.ok res) exec).1 =
              ["precheck"] := by
            simp [decide_and_act_effects, hd, status_trace]
          rw [ht]
          exact ⟨by intro h; simp at h,
                 fun s => List.nodup_iff_count_le_one.mp (by decide) s⟩
        | false =>
          cases exec with
          | ok res2 =>
            have ht : status_trace
                (decide_and_act_effects d rid false (.ok res) (.ok res2)).1 =
                ["precheck", "running", "success"] := by
              simp [decide_and_act_effects, hd, status_trace]
            rw [ht]
            exact ⟨fun _ => ⟨0, 1, by norm_num, rfl, rfl⟩,
                   fun s => List.nodup_iff_count_le_one.mp (by decide) s⟩
          | error e2 =>
            have ht : status_trace
                (decide_and_act_effects d rid false (.ok res) (.error e2)).1 =
                ["precheck", "running", "failed"] := by
              simp [decide_and_act_effects, hd, status_trace]
            rw [ht]
            exact ⟨fun _ => ⟨0, 1, by norm_num, rfl, rfl⟩,
                   fun s => List.nodup_iff_count_le_one.mp (by decide) s⟩
  · intro dec rid dry out ha
    cases out with
    | error e =>
      have ht : status_trace (execute_upgrade_effects dec rid dry (.error e)).1 =
          ["running", "failed"] := by
        simp [execute_upgrade_effects, ha, status_trace]
      rw [ht]
      exact ⟨by decide, by decide,
             fun s => List.nodup_iff_count_le_one.mp (by decide) s⟩
    | ok res =>
      cases hs : res.success with
      | false =>
        have ht : status_trace (execute_upgrade_effects dec rid dry (.ok res)).1 =
            ["running", "failed"] := by
          simp [execute_upgrade_effects, ha, hs, status_trace]
        rw [ht]
        exact ⟨by decide, by decide,
               fun s => List.nodup_iff_count_le_one.mp (by decide) s⟩
      | true =>
        have ht : status_trace (execute_upgrade_effects dec rid dry (.ok res)).1 =
            ["running", "success"] := by
          simp [execute_upgrade_effects, ha, hs, status_trace]
        rw [ht]
        exact ⟨by decide, by decide,
               fun s => List.nodup_iff_count_le_one.mp (by decide) s⟩

/-- Witness for C3 (amended): the lifecycle facts at concrete inputs — a
full approved `decide_and_act` run records `precheck` at position 0 and
`running` at position 1, and a concrete approved `execute_upgrade` run
records `running` but never `precheck`. -/
theorem upgrade_status_lifecycle_witness :
    (∃ (i j : Nat), i < j ∧
      (status_trace (decide_and_act_effects
        ⟨true, "ok", some "16.12.03"⟩ "R1" false
        (.ok ⟨0, "", ""⟩) (.ok ⟨0, "", ""⟩)).1)[i]? = some "precheck" ∧
      (status_trace (decide_and_act_effects
        ⟨true, "ok", some "16.12.03"⟩ "R1" false
        (.ok ⟨0, "", ""⟩) (.ok ⟨0, "", ""⟩)).1)[j]? = some "running") ∧
    "running" ∈ status_trace (execute_upgrade_effects
        ⟨true, "ok", some "16.12.03", 1, ⟨some 45, some 60, 0, []⟩⟩
        "R1" false (.ok ⟨0, "", "", true⟩)).1 :=
  ⟨(upgrade_status_lifecycle.1 ⟨true, "ok", some "16.12.03"⟩ "R1" false
      (.ok ⟨0, "", ""⟩) (.ok ⟨0, "", ""⟩)).1 (by decide),
   (upgrade_status_lifecycle.2
      ⟨true, "ok", some "16.12.03", 1, ⟨some 45, some 60, 0, []⟩⟩
      "R1" false (.ok ⟨0, "", "", true⟩) rfl).1⟩

/-- Counterexample to claim C9: with an in-flight (`running`) attempt for
`R1` already persisted, a new upgrade request for `R1` is not rejected:
`decide_and_act` proceeds all the way to `success` and simply appends a
second `upgrades` row — both of two simultaneous requests would proceed,
and no `InvalidTransition` condition exists anywhere in the code. -/
theorem inflight_attempt_not_rejected_counterexample :
    has_inflight_attempt
        ⟨[⟨"R1", "approve", "prior attempt", some "16.12.03", "running"⟩], []⟩
        "R1" = true ∧
    (decide_and_act ⟨true, "ok", some "16.12.03"⟩ "R1" false
        (.ok ⟨0, "", ""⟩) (.ok ⟨0, "", ""⟩)
        ⟨[⟨"R1", "approve", "prior attempt", some "16.12.03", "running"⟩],
         []⟩).2 = "success" ∧
    (decide_and_act ⟨true, "ok", some "16.12.03"⟩ "R1" false
        (.ok ⟨0, "", ""⟩) (.ok ⟨0, "", ""⟩)
        ⟨[⟨"R1", "approve", "prior attempt", some "16.12.03", "running"⟩],
         []⟩).1.upgrades.length = 2 := by
  exact ⟨rfl, rfl, rfl⟩

/-- Claim C9 as amended: the orchestrator performs no per-device
exclusivity check at all — even when the store already holds a non-terminal
attempt for the device, `decide_and_act` proceeds through one of its five
normal outcomes (there is no rejection outcome), appends a fresh attempt
row, and its reported status is computed without consulting the store. -/
theorem no_inflight_exclusivity :
    ∀ (db : DB) (d : Decision) (rid : String) (dry : Bool)
      (pre exec : Except String RunResult),
      has_inflight_attempt db rid = true →
      (decide_and_act d rid dry pre exec db).2 ∈
        (["denied", "precheck-failed", "precheck-ok", "success", "failed"] :
          List String) ∧
      (decide_and_act d rid dry pre exec db).1.upgrades.length =
        db.upgrades.length + 1 ∧
      (decide_and_act d rid dry pre exec db).2 =
        (decide_and_act_effects d rid dry pre exec).2 := by
  intro db d rid dry pre exec _
  refine ⟨?_, ?_, rfl⟩
  · cases hd : d.approve with
    | false => simp [decide_and_act, decide_and_act_effects, hd]
    | true =>
      cases pre with
      | error e => simp [decide_and_act, decide_and_act_effects, hd]
      | ok res =>
        cases dry with
        | true => simp [decide_and_act, decide_and_act_effects, hd]
        | false =>
          cases exec with
          | ok res2 => simp [decide_and_act, decide_and_act_effects, hd]
          | error e2 => simp [decide_and_act, decide_and_act_effects, hd]
  · cases hd : d.approve with
    | false =>
      simp [decide_and_act, decide_and_act_effects, hd, run_effects,
        record_decision, update_upgrade_status_length]
    | true =>
      cases pre with
      | error e =>
        simp [decide_and_act, decide_and_act_effects, hd, run_effects,
          record_decision, update_upgrade_status_length]
      | ok res =>
        cases dry with
        | true =>
          simp [decide_and_act, decide_and_act_effects, hd, run_effects,
            record_decision, update_upgrade_status_length]
        | false =>
          cases exec with
          | ok res2 =>
            simp [decide_and_act, decide_and_act_effects, hd, run_effects,
              record_decision, update_upgrade_status_length]
          | error e2 =>
            simp [decide_and_act, decide_and_act_effects, hd, run_effects,
              record_decision, update_upgrade_status_length]

/-- Witness for C9 (amended): a store holding a non-terminal (`precheck`)
attempt for `R2` — the new request still appends a row and reports a normal
status. -/
theorem no_inflight_exclusivity_witness :
    (decide_and_act ⟨false, "Denied: cpu", none⟩ "R2" false
        (.error "unused") (.error "unused")
        ⟨[⟨"R2", "approve", "older", none, "precheck"⟩], []⟩).2 ∈
      (["denied", "precheck-failed", "precheck-ok", "success", "failed"] :
        List String) ∧
    (decide_and_act ⟨false, "Denied: cpu", none⟩ "R2" false
        (.error "unused") (.error "unused")
        ⟨[⟨"R2", "approve", "older", none, "precheck"⟩], []⟩).1.upgrades.length =
      2 :=
  ⟨(no_inflight_exclusivity
      ⟨[⟨"R2", "approve", "older", none, "precheck"⟩], []⟩
      ⟨false, "Denied: cpu", none⟩ "R2" false
      (.error "unused") (.error "unused") (by decide)).1,
   (no_inflight_exclusivity
      ⟨[⟨"R2", "approve", "older", none, "precheck"⟩], []⟩
      ⟨false, "Denied: cpu", none⟩ "R2" false
      (.error "unused") (.error "unused") (by decide)).2.1⟩

end NetOps
